import Mathlib

/-!
# VRAM Governor — shallow embedding and verification

A shallow embedding of the Day-6 N-object priority VRAM governor
(`src/Day 2/VramGovernor/src/main.cpp`, the "Day 6 — N Governed Objects with
Priority Buckets" unit): telemetry source, fallback estimator, telemetry
watchdog, managed-object registry and the governor control loop.

Modelling conventions: C++ `int` becomes `Int`; C++ `float` fields (biases,
steps, footprints, times) become exact rationals `Rat`; the hardware counter
read (`glGetIntegerv` of the NVX/ATI free-memory query plus its error/positivity
check) becomes an `Option Int` input, `none` when no hardware mode is available.
Rendering, window and input plumbing is not modelled except for the state the
`R`-key reset handler touches.
-/

namespace VramGov

/-- `enum class Priority { Low, Normal, High }`. -/
inductive Priority where
  | Low
  | Normal
  | High
  deriving DecidableEq, Repr, Inhabited

/-- `struct GovObject`. The grid-placement fields (`gridX`, `gridY`) are
omitted: the governor never reads them. -/
structure GovObject where
  id : Int := -1
  priority : Priority := .Normal
  bias : Rat := 0
  biasMin : Rat := 0
  biasMax : Rat := 8
  visible : Bool := true
  estMB : Rat := 64
  deriving DecidableEq, Repr, Inhabited

/-- `struct Governor`: configuration and controller state. The status-printing
state (`lastPrint`) is omitted: it never affects objects. Default field values
are the source's initializers. -/
structure Governor where
  targetFreeMB : Int := 1024
  hysteresisMB : Int := 128
  spikeThreshMB : Int := 256
  stepGradual : Rat := 1/2
  stepSpike : Rat := 5/4
  stepBudgetPerTick : Int := 4
  lastFreeMB : Int := -1
  lastEval : Rat := 0
  evalDt : Rat := 1/4
  globalNudge : Rat := 0
  objects : List GovObject := []
  deriving DecidableEq, Repr, Inhabited

/-- Footprint of the object at index `i` of the registry. -/
def estOf (objs : List GovObject) (i : Nat) : Rat :=
  (objs.getD i default).estMB

/-- Priority of the object at index `i` of the registry. -/
def prioOf (objs : List GovObject) (i : Nat) : Priority :=
  (objs.getD i default).priority

/-- The index-collection loop of `Governor::rebuildBuckets`: indices of the
visible objects of tier `p`, in registry order (the `push_back` order). -/
def visibleIdx (objs : List GovObject) (p : Priority) : List Nat :=
  (List.range objs.length).filter fun i =>
    (objs.getD i default).visible && (objs.getD i default).priority == p

/-- Insertion step of the executable stand-in for
`std::sort(b, [&](int a,int b){ return objects[a].estMB > objects[b].estMB; })`. -/
def insertByEst (objs : List GovObject) (i : Nat) : List Nat → List Nat
  | [] => [i]
  | j :: rest =>
    if estOf objs j < estOf objs i then i :: j :: rest
    else j :: insertByEst objs i rest

/-- Executable sort for the bucket comparator (descending `estMB`). The
comparator is the source's; the order among equal footprints is the sort
implementation's choice in the source (`std::sort` is unstable and the
comparator looks only at `estMB`) — see `sortSpecStd` for the contract the
source actually guarantees. -/
def sortByEstMB (objs : List GovObject) : List Nat → List Nat
  | [] => []
  | i :: rest => insertByEst objs i (sortByEstMB objs rest)

/-- `Governor::rebuildBuckets`, one tier's bucket: visible indices of tier `p`,
sorted largest footprint first. -/
def rebuildBucket (objs : List GovObject) (p : Priority) : List Nat :=
  sortByEstMB objs (visibleIdx objs p)

/-- `std::clamp(v, lo, hi)`. -/
def clampC (v lo hi : Rat) : Rat :=
  if v < lo then lo else if hi < v then hi else v

/-- `Governor::clampObj`. -/
def clampObj (o : GovObject) : GovObject :=
  { o with bias := clampC o.bias o.biasMin o.biasMax }

/-- One recorded bias write of a tick: which object index was stepped, by which
delta, and whether the write actually changed the stored bias. -/
structure StepEvent where
  idx : Nat
  delta : Rat
  effective : Bool
  deriving DecidableEq, Repr

/-- The body of one iteration of the `Governor::applySteps` loop on object
`idx`: add `delta` to the bias, clamp immediately, report whether the stored
value changed. -/
def stepAt (objs : List GovObject) (idx : Nat) (delta : Rat) :
    List GovObject × Bool :=
  match objs[idx]? with
  | none => (objs, false)
  | some o =>
    let o2 := clampObj { o with bias := o.bias + delta }
    (objs.set idx o2, o2.bias != o.bias)

/-- `Governor::applySteps`: walk the bucket in order, stepping each object by
`delta` and clamping, decrementing `budget` only when the write changed the
value, breaking out as soon as the budget is exhausted. Returns the updated
registry, the remaining budget, and the trace of writes performed. -/
def applySteps (objs : List GovObject) (bucket : List Nat) (delta : Rat)
    (budget : Int) : List GovObject × Int × List StepEvent :=
  match bucket with
  | [] => (objs, budget, [])
  | idx :: rest =>
    if budget ≤ 0 then (objs, budget, [])
    else
      let r := stepAt objs idx delta
      let budget2 := if r.2 then budget - 1 else budget
      let t := applySteps r.1 rest delta budget2
      (t.1, t.2.1, ⟨idx, delta, r.2⟩ :: t.2.2)

/-- `Governor::spikeTourniquet`: the Low bucket, stronger step `+stepSpike`,
with a freshly initialized budget. -/
def spikeTourniquet (g : Governor) (objs : List GovObject) (bLow : List Nat) :
    List GovObject × List StepEvent :=
  let r := applySteps objs bLow g.stepSpike g.stepBudgetPerTick
  (r.1, r.2.2)

/-- `Governor::escalate`: `+stepGradual` in order Low, Normal, High, one
freshly initialized budget threaded through all three buckets. -/
def escalate (g : Governor) (objs : List GovObject) (bLow bNorm bHigh : List Nat) :
    List GovObject × List StepEvent :=
  let r1 := applySteps objs bLow g.stepGradual g.stepBudgetPerTick
  let r2 := applySteps r1.1 bNorm g.stepGradual r1.2.1
  let r3 := applySteps r2.1 bHigh g.stepGradual r2.2.1
  (r3.1, r1.2.2 ++ (r2.2.2 ++ r3.2.2))

/-- `Governor::deescalate`: `-stepGradual` in order High, Normal, Low, one
freshly initialized budget threaded through all three buckets. -/
def deescalate (g : Governor) (objs : List GovObject) (bLow bNorm bHigh : List Nat) :
    List GovObject × List StepEvent :=
  let r1 := applySteps objs bHigh (-g.stepGradual) g.stepBudgetPerTick
  let r2 := applySteps r1.1 bNorm (-g.stepGradual) r1.2.1
  let r3 := applySteps r2.1 bLow (-g.stepGradual) r2.2.1
  (r3.1, r1.2.2 ++ (r2.2.2 ++ r3.2.2))

/-- The spike check of `Governor::evaluate`:
`if (delta <= -spikeThreshMB) spikeTourniquet();`. The buckets were rebuilt
from the registry at the start of the tick. -/
def spikePhase (g : Governor) (delta : Int) : List GovObject × List StepEvent :=
  if delta ≤ -g.spikeThreshMB then
    spikeTourniquet g g.objects (rebuildBucket g.objects .Low)
  else (g.objects, [])

/-- The band check of `Governor::evaluate`: escalate below `lo`, de-escalate
above `hi`, otherwise nothing. `objs` is the registry after the spike check;
the buckets are the ones rebuilt at the start of the tick (index lists over
the pre-step registry — bias writes touch neither membership nor `estMB`). -/
def bandPhase (g : Governor) (freeMB : Int) (objs : List GovObject) :
    List GovObject × List StepEvent :=
  if freeMB < g.targetFreeMB - g.hysteresisMB then
    escalate g objs (rebuildBucket g.objects .Low)
      (rebuildBucket g.objects .Normal) (rebuildBucket g.objects .High)
  else if g.targetFreeMB + g.hysteresisMB < freeMB then
    deescalate g objs (rebuildBucket g.objects .Low)
      (rebuildBucket g.objects .Normal) (rebuildBucket g.objects .High)
  else (objs, [])

/-- The object-mutation phase of `Governor::evaluate` on a tick that is due:
rebuild the buckets, run the spike check, then the band check, in source
order. `delta` is `freeMB - lastFreeMB`. -/
def tickSteps (g : Governor) (freeMB delta : Int) :
    List GovObject × List StepEvent :=
  ((bandPhase g freeMB (spikePhase g delta).1).1,
    (spikePhase g delta).2 ++ (bandPhase g freeMB (spikePhase g delta).1).2)

/-- `Governor::evaluate` (status printing omitted): the first sample only
records the reading; ticks arriving faster than `evalDt` are no-ops; otherwise
run the mutation phase and record `freeMB`. Also returns the tick's write
trace. -/
def evaluate (g : Governor) (now : Rat) (freeMB : Int) :
    Governor × List StepEvent :=
  if g.lastFreeMB < 0 then
    ({ g with lastFreeMB := freeMB, lastEval := now }, [])
  else if now - g.lastEval < g.evalDt then (g, [])
  else
    ({ g with
        lastEval := now,
        lastFreeMB := freeMB,
        objects := (tickSteps g freeMB (freeMB - g.lastFreeMB)).1 },
      (tickSteps g freeMB (freeMB - g.lastFreeMB)).2)

/-- The fallback path of `Telemetry::readFreeMB`:
`std::max(0, fallbackBaseFreeMB - padBlocks*256)`. -/
def estimateFreeMB (baselineFreeMB committedBlocks : Int) : Int :=
  max 0 (baselineFreeMB - committedBlocks * 256)

/-- `struct Telemetry`. The NVX/ATI mode flags are folded into the `Option Int`
hardware reading supplied to `readFreeMB`: `none` models `TelMode::FALLBACK`
or a failed driver query. -/
structure Telemetry where
  useTelemetry : Bool := true
  fallbackBaseFreeMB : Int := 2048
  padBlocks : Int := 0
  deriving DecidableEq, Repr, Inhabited

/-- `Telemetry::readFreeMB`. `hwKB` is the raw hardware counter in kilobytes
when the driver query succeeds (`glGetError()==GL_NO_ERROR`), else `none`;
the positivity check `kb>0` is the source's. -/
def readFreeMB (t : Telemetry) (hwKB : Option Int) : Bool × Int :=
  if t.useTelemetry then
    match hwKB with
    | some kb =>
      if 0 < kb then (true, kb / 1024)
      else (false, estimateFreeMB t.fallbackBaseFreeMB t.padBlocks)
    | none => (false, estimateFreeMB t.fallbackBaseFreeMB t.padBlocks)
  else (false, estimateFreeMB t.fallbackBaseFreeMB t.padBlocks)

/-- `struct TelWatchdog` counters (`lastMB` sentinel `-1`, stall counter
`noMoves`). -/
structure TelWatchdog where
  lastMB : Int := -1
  noMoves : Int := 0
  deriving DecidableEq, Repr, Inhabited

/-- `TelWatchdog::onAllocCheck`: read telemetry; ignore invalid readings;
record the first sample without judgment; afterwards compare the drop to
128 MB, and after two consecutive sub-128 drops switch telemetry off. -/
def onAllocCheck (w : TelWatchdog) (t : Telemetry) (hwKB : Option Int) :
    TelWatchdog × Telemetry :=
  let r := readFreeMB t hwKB
  if !r.1 then (w, t)
  else if w.lastMB < 0 then ({ w with lastMB := r.2 }, t)
  else
    let delta := w.lastMB - r.2
    let w2 := { w with lastMB := r.2 }
    if delta < 128 then
      let w3 := { w2 with noMoves := w2.noMoves + 1 }
      if 2 ≤ w3.noMoves then (w3, { t with useTelemetry := false })
      else (w3, t)
    else ({ w2 with noMoves := 0 }, t)

/-- Iterate `onAllocCheck` over a sequence of hardware readings (one per
allocation event). -/
def runWatchdog (w : TelWatchdog) (t : Telemetry) :
    List (Option Int) → TelWatchdog × Telemetry
  | [] => (w, t)
  | hw :: rest =>
    let s := onAllocCheck w t hw
    runWatchdog s.1 s.2 rest

/-- The application state touched by the `R` case of `keyCB`. `pads` is
`gPads.size()`. -/
structure AppState where
  pads : Nat := 0
  tel : Telemetry := {}
  watch : TelWatchdog := {}
  gov : Governor := {}
  deriving DecidableEq, Repr, Inhabited

/-- The `GLFW_KEY_R` case of `keyCB`: destroy all pads, clear the committed
block count, and zero every object's bias. Nothing else is written. -/
def keyResetR (s : AppState) : AppState :=
  { s with
    pads := 0,
    tel := { s.tel with padBlocks := 0 },
    gov := { s.gov with objects := s.gov.objects.map fun o => { o with bias := 0 } } }

/-- Number of effective (value-changing) writes in a trace. -/
def effCount (tr : List StepEvent) : Nat :=
  (tr.filter (·.effective)).length

/-- The `std::sort` postcondition for the bucket comparator: sorted so that no
later element has strictly larger footprint than an earlier one. -/
def sortedByEstDesc (objs : List GovObject) (l : List Nat) : Prop :=
  l.Pairwise fun a b => estOf objs b ≤ estOf objs a

/-- Everything `std::sort(bucket, cmp)` guarantees about the sorted bucket:
it is some permutation of the input that is sorted for the comparator. The
order of elements the comparator cannot distinguish (equal footprints) is
unspecified. -/
def sortSpecStd (objs : List GovObject) (input output : List Nat) : Prop :=
  output.Perm input ∧ sortedByEstDesc objs output

/-- Modelled from the spec: the bucket ordering claim C6 asserts — descending
footprint with ties broken by ascending object id. -/
def specTieOrder (objs : List GovObject) (l : List Nat) : Prop :=
  l.Pairwise fun a b =>
    estOf objs b < estOf objs a ∨
      (estOf objs a = estOf objs b ∧ (objs.getD a default).id < (objs.getD b default).id)

/-! ### Concrete fixtures (the demo registry built by `main` via `addObj`) -/

/-- The six demo objects registered in `main` (grid coordinates dropped);
`addObj` always passes `bias = 0`, `biasMin = 0`, `biasMax = 8`,
`visible = true`. -/
def demoObjects : List GovObject :=
  [ { id := 0, priority := .Low, estMB := 200 },
    { id := 1, priority := .Low, estMB := 150 },
    { id := 2, priority := .Normal, estMB := 180 },
    { id := 3, priority := .Normal, estMB := 120 },
    { id := 4, priority := .High, estMB := 220 },
    { id := 5, priority := .High, estMB := 100 } ]

/-- The demo registry with a previous reading of 2000 MB recorded and the
rate limiter idle since time 0: a tick at `now = 1` is due. -/
def gDemo : Governor :=
  { lastFreeMB := 2000, lastEval := 0, objects := demoObjects }

/-- Application state with pads committed, a stall already counted by the
watchdog, and nonzero biases possible — input for exercising the reset key. -/
def sReset : AppState :=
  { pads := 2,
    tel := { padBlocks := 2 },
    watch := { lastMB := 1000, noMoves := 1 },
    gov := gDemo }

/-- Two visible Low objects with equal footprints (only their ids differ):
the bucket comparator cannot distinguish them. -/
def objsTie : List GovObject :=
  [ { id := 0, priority := .Low, estMB := 100 },
    { id := 1, priority := .Low, estMB := 100 } ]

/-- An invisible managed object. -/
def oHidden : GovObject :=
  { id := 1, priority := .Low, visible := false, estMB := 150 }

/-- A registry holding a visible and an invisible object, due for a tick. -/
def gHidden : Governor :=
  { lastFreeMB := 2000, lastEval := 0,
    objects := [{ id := 0, priority := .Low, estMB := 200 }, oHidden] }

/-- The demo registry one tick after a reading of 1000 MB: the next reading
of 1000 MB sits strictly inside the default band `(896, 1152)` with zero
delta. -/
def gDemoInBand : Governor :=
  { lastFreeMB := 1000, lastEval := 0, objects := demoObjects }

/-! ### Clamping and single-step lemmas -/

/-- An object whose bias bounds are sane and whose bias lies inside them. -/
def GoodObj (o : GovObject) : Prop :=
  o.biasMin ≤ o.biasMax ∧ o.biasMin ≤ o.bias ∧ o.bias ≤ o.biasMax

theorem clampC_bounds {v lo hi : Rat} (h : lo ≤ hi) :
    lo ≤ clampC v lo hi ∧ clampC v lo hi ≤ hi := by
  unfold clampC
  split_ifs with h1 h2
  · exact ⟨le_refl _, h⟩
  · exact ⟨h, le_refl _⟩
  · exact ⟨le_of_not_lt h1, le_of_not_lt h2⟩

theorem stepAt_getElem?_ne (objs : List GovObject) (idx : Nat) (delta : Rat)
    {j : Nat} (h : idx ≠ j) : (stepAt objs idx delta).1[j]? = objs[j]? := by
  unfold stepAt
  cases objs[idx]? with
  | none => rfl
  | some o => exact List.getElem?_set_ne h

theorem stepAt_good {objs : List GovObject} (idx : Nat) (delta : Rat)
    (h : ∀ o ∈ objs, GoodObj o) : ∀ o ∈ (stepAt objs idx delta).1, GoodObj o := by
  unfold stepAt
  cases hq : objs[idx]? with
  | none => exact h
  | some o =>
    intro o2 ho2
    rcases List.mem_or_eq_of_mem_set ho2 with hmem | rfl
    · exact h _ hmem
    · have hgood := h o (List.getElem?_mem hq)
      exact ⟨hgood.1, clampC_bounds hgood.1⟩

/-! ### `applySteps` lemmas -/

theorem applySteps_stop (objs : List GovObject) (idx : Nat) (rest : List Nat)
    (delta : Rat) {budget : Int} (hb : budget ≤ 0) :
    applySteps objs (idx :: rest) delta budget = (objs, budget, []) := by
  unfold applySteps
  rw [if_pos hb]

theorem applySteps_cons (objs : List GovObject) (idx : Nat) (rest : List Nat)
    (delta : Rat) {budget : Int} (hb : ¬ budget ≤ 0) :
    applySteps objs (idx :: rest) delta budget =
      ((applySteps (stepAt objs idx delta).1 rest delta
          (if (stepAt objs idx delta).2 then budget - 1 else budget)).1,
        (applySteps (stepAt objs idx delta).1 rest delta
          (if (stepAt objs idx delta).2 then budget - 1 else budget)).2.1,
        ⟨idx, delta, (stepAt objs idx delta).2⟩ ::
          (applySteps (stepAt objs idx delta).1 rest delta
            (if (stepAt objs idx delta).2 then budget - 1 else budget)).2.2) := by
  conv_lhs => unfold applySteps
  rw [if_neg hb]

theorem applySteps_getElem?_not_mem (bucket : List Nat) (delta : Rat) :
    ∀ (objs : List GovObject) (budget : Int) {j : Nat}, j ∉ bucket →
      (applySteps objs bucket delta budget).1[j]? = objs[j]? := by
  induction bucket with
  | nil => intro objs budget j _; rfl
  | cons idx rest ih =>
    intro objs budget j hj
    by_cases hb : budget ≤ 0
    · rw [applySteps_stop objs idx rest delta hb]
    · rw [applySteps_cons objs idx rest delta hb]
      have hji : idx ≠ j := fun e => hj (e ▸ List.mem_cons_self idx rest)
      have hjr : j ∉ rest := fun hr => hj (List.mem_cons_of_mem _ hr)
      exact (ih _ _ hjr).trans (stepAt_getElem?_ne objs idx delta hji)

theorem applySteps_good (bucket : List Nat) (delta : Rat) :
    ∀ (objs : List GovObject) (budget : Int), (∀ o ∈ objs, GoodObj o) →
      ∀ o ∈ (applySteps objs bucket delta budget).1, GoodObj o := by
  induction bucket with
  | nil => intro objs budget h; exact h
  | cons idx rest ih =>
    intro objs budget h
    by_cases hb : budget ≤ 0
    · rw [applySteps_stop objs idx rest delta hb]; exact h
    · rw [applySteps_cons objs idx rest delta hb]
      exact ih _ _ (stepAt_good idx delta h)

theorem effCount_nil : effCount [] = 0 := rfl

theorem effCount_cons (e : StepEvent) (tr : List StepEvent) :
    effCount (e :: tr) = (if e.effective then 1 else 0) + effCount tr := by
  unfold effCount
  cases he : e.effective <;> simp [List.filter_cons, he, Nat.add_comm]

theorem effCount_append (t1 t2 : List StepEvent) :
    effCount (t1 ++ t2) = effCount t1 + effCount t2 := by
  unfold effCount
  rw [List.filter_append, List.length_append]

theorem applySteps_budget (bucket : List Nat) (delta : Rat) :
    ∀ (objs : List GovObject) (budget : Int), 0 ≤ budget →
      0 ≤ (applySteps objs bucket delta budget).2.1 ∧
        (effCount (applySteps objs bucket delta budget).2.2 : Int) =
          budget - (applySteps objs bucket delta budget).2.1 := by
  induction bucket with
  | nil => intro objs budget h; exact ⟨h, by simp [applySteps, effCount_nil]⟩
  | cons idx rest ih =>
    intro objs budget h
    by_cases hb : budget ≤ 0
    · rw [applySteps_stop objs idx rest delta hb]
      exact ⟨h, by simp [effCount_nil]⟩
    · rw [applySteps_cons objs idx rest delta hb]
      cases heff : (stepAt objs idx delta).2
      · have hrec := ih (stepAt objs idx delta).1 budget h
        simp only [heff, if_false, Bool.false_eq_true] at hrec ⊢
        refine ⟨hrec.1, ?_⟩
        rw [effCount_cons]
        simp only [heff, Bool.false_eq_true, if_false]
        push_cast
        omega
      · have hb1 : (0:Int) ≤ budget - 1 := by omega
        have hrec := ih (stepAt objs idx delta).1 (budget - 1) hb1
        simp only [heff, if_true] at hrec ⊢
        refine ⟨hrec.1, ?_⟩
        rw [effCount_cons]
        simp only [heff, if_true]
        push_cast
        omega

theorem applySteps_events (bucket : List Nat) (delta : Rat) :
    ∀ (objs : List GovObject) (budget : Int),
      ∀ e ∈ (applySteps objs bucket delta budget).2.2,
        e.idx ∈ bucket ∧ e.delta = delta := by
  induction bucket with
  | nil => intro objs budget e he; cases he
  | cons idx rest ih =>
    intro objs budget e he
    by_cases hb : budget ≤ 0
    · rw [applySteps_stop objs idx rest delta hb] at he; cases he
    · rw [applySteps_cons objs idx rest delta hb] at he
      rcases List.mem_cons.mp he with rfl | he2
      · exact ⟨List.mem_cons_self idx rest, rfl⟩
      · have := ih _ _ e he2
        exact ⟨List.mem_cons_of_mem _ this.1, this.2⟩

/-! ### Bucket construction lemmas -/

theorem mem_visibleIdx {objs : List GovObject} {p : Priority} {i : Nat} :
    i ∈ visibleIdx objs p ↔
      i < objs.length ∧ (objs.getD i default).visible = true ∧
        (objs.getD i default).priority = p := by
  unfold visibleIdx
  simp only [List.mem_filter, List.mem_range, Bool.and_eq_true, beq_iff_eq,
    and_assoc]

theorem insertByEst_perm (objs : List GovObject) (i : Nat) (l : List Nat) :
    (insertByEst objs i l).Perm (i :: l) := by
  induction l with
  | nil => exact List.Perm.refl _
  | cons j rest ih =>
    unfold insertByEst
    split_ifs with h
    · exact List.Perm.refl _
    · exact (List.Perm.cons j ih).trans (List.Perm.swap i j rest)

theorem insertByEst_sorted (objs : List GovObject) (i : Nat) {l : List Nat}
    (h : sortedByEstDesc objs l) : sortedByEstDesc objs (insertByEst objs i l) := by
  induction l with
  | nil => simp [insertByEst, sortedByEstDesc]
  | cons j rest ih =>
    rcases List.pairwise_cons.mp h with ⟨hj, hrest⟩
    unfold insertByEst
    split_ifs with hlt
    · refine List.Pairwise.cons ?_ h
      intro b hb
      rcases List.mem_cons.mp hb with rfl | hb2
      · exact le_of_lt hlt
      · exact le_trans (hj b hb2) (le_of_lt hlt)
    · refine List.Pairwise.cons ?_ (ih hrest)
      intro b hb
      have hb3 : b ∈ i :: rest := (insertByEst_perm objs i rest).mem_iff.mp hb
      rcases List.mem_cons.mp hb3 with rfl | hb4
      · exact le_of_not_lt hlt
      · exact hj b hb4

theorem sortByEstMB_perm (objs : List GovObject) (l : List Nat) :
    (sortByEstMB objs l).Perm l := by
  induction l with
  | nil => exact List.Perm.refl _
  | cons i rest ih =>
    unfold sortByEstMB
    exact (insertByEst_perm objs i _).trans (List.Perm.cons i ih)

theorem sortByEstMB_sorted (objs : List GovObject) (l : List Nat) :
    sortedByEstDesc objs (sortByEstMB objs l) := by
  induction l with
  | nil => exact List.Pairwise.nil
  | cons i rest ih => exact insertByEst_sorted objs i ih

theorem rebuildBucket_perm (objs : List GovObject) (p : Priority) :
    (rebuildBucket objs p).Perm (visibleIdx objs p) :=
  sortByEstMB_perm objs (visibleIdx objs p)

theorem mem_rebuildBucket {objs : List GovObject} {p : Priority} {i : Nat} :
    i ∈ rebuildBucket objs p ↔
      i < objs.length ∧ (objs.getD i default).visible = true ∧
        (objs.getD i default).priority = p :=
  (rebuildBucket_perm objs p).mem_iff.trans mem_visibleIdx

theorem rebuildBucket_sorted (objs : List GovObject) (p : Priority) :
    sortedByEstDesc objs (rebuildBucket objs p) :=
  sortByEstMB_sorted objs (visibleIdx objs p)

/-! ### Phase-level lemmas -/

theorem applySteps3_effCount (objs : List GovObject) (bA bB bC : List Nat)
    (d : Rat) {budget : Int} (h : 0 ≤ budget) :
    (effCount ((applySteps objs bA d budget).2.2 ++
        ((applySteps (applySteps objs bA d budget).1 bB d
            (applySteps objs bA d budget).2.1).2.2 ++
          (applySteps
            (applySteps (applySteps objs bA d budget).1 bB d
              (applySteps objs bA d budget).2.1).1 bC d
            (applySteps (applySteps objs bA d budget).1 bB d
              (applySteps objs bA d budget).2.1).2.1).2.2)) : Int) ≤ budget := by
  have h1 := applySteps_budget bA d objs budget h
  have h2 := applySteps_budget bB d (applySteps objs bA d budget).1
    (applySteps objs bA d budget).2.1 h1.1
  have h3 := applySteps_budget bC d
    (applySteps (applySteps objs bA d budget).1 bB d (applySteps objs bA d budget).2.1).1
    (applySteps (applySteps objs bA d budget).1 bB d (applySteps objs bA d budget).2.1).2.1
    h2.1
  rw [effCount_append, effCount_append]
  push_cast
  omega

theorem spikePhase_pos (g : Governor) {delta : Int} (h : delta ≤ -g.spikeThreshMB) :
    spikePhase g delta = spikeTourniquet g g.objects (rebuildBucket g.objects .Low) := by
  unfold spikePhase
  rw [if_pos h]

theorem spikePhase_neg (g : Governor) {delta : Int} (h : ¬ delta ≤ -g.spikeThreshMB) :
    spikePhase g delta = (g.objects, []) := by
  unfold spikePhase
  rw [if_neg h]

theorem bandPhase_esc (g : Governor) {freeMB : Int} (objs : List GovObject)
    (h : freeMB < g.targetFreeMB - g.hysteresisMB) :
    bandPhase g freeMB objs = escalate g objs (rebuildBucket g.objects .Low)
      (rebuildBucket g.objects .Normal) (rebuildBucket g.objects .High) := by
  unfold bandPhase
  rw [if_pos h]

theorem bandPhase_deesc (g : Governor) {freeMB : Int} (objs : List GovObject)
    (h1 : ¬ freeMB < g.targetFreeMB - g.hysteresisMB)
    (h2 : g.targetFreeMB + g.hysteresisMB < freeMB) :
    bandPhase g freeMB objs = deescalate g objs (rebuildBucket g.objects .Low)
      (rebuildBucket g.objects .Normal) (rebuildBucket g.objects .High) := by
  unfold bandPhase
  rw [if_neg h1, if_pos h2]

theorem bandPhase_none (g : Governor) {freeMB : Int} (objs : List GovObject)
    (h1 : ¬ freeMB < g.targetFreeMB - g.hysteresisMB)
    (h2 : ¬ g.targetFreeMB + g.hysteresisMB < freeMB) :
    bandPhase g freeMB objs = (objs, []) := by
  unfold bandPhase
  rw [if_neg h1, if_neg h2]

theorem spikePhase_good (g : Governor) (delta : Int)
    (h : ∀ o ∈ g.objects, GoodObj o) : ∀ o ∈ (spikePhase g delta).1, GoodObj o := by
  unfold spikePhase spikeTourniquet
  split_ifs with hs
  · exact applySteps_good _ _ _ _ h
  · exact h

theorem bandPhase_good (g : Governor) (freeMB : Int) {objs : List GovObject}
    (h : ∀ o ∈ objs, GoodObj o) : ∀ o ∈ (bandPhase g freeMB objs).1, GoodObj o := by
  unfold bandPhase escalate deescalate
  split_ifs with hs1 hs2
  · exact applySteps_good _ _ _ _ (applySteps_good _ _ _ _ (applySteps_good _ _ _ _ h))
  · exact applySteps_good _ _ _ _ (applySteps_good _ _ _ _ (applySteps_good _ _ _ _ h))
  · exact h

theorem spikePhase_effCount (g : Governor) (delta : Int)
    (h : 0 ≤ g.stepBudgetPerTick) :
    (effCount (spikePhase g delta).2 : Int) ≤ g.stepBudgetPerTick := by
  unfold spikePhase spikeTourniquet
  split_ifs with hs
  · have h1 := applySteps_budget (rebuildBucket g.objects .Low) g.stepSpike
      g.objects g.stepBudgetPerTick h
    dsimp only
    omega
  · simp [effCount_nil]
    omega

theorem bandPhase_effCount (g : Governor) (freeMB : Int) (objs : List GovObject)
    (h : 0 ≤ g.stepBudgetPerTick) :
    (effCount (bandPhase g freeMB objs).2 : Int) ≤ g.stepBudgetPerTick := by
  unfold bandPhase escalate deescalate
  split_ifs with hs1 hs2
  · exact applySteps3_effCount objs _ _ _ g.stepGradual h
  · exact applySteps3_effCount objs _ _ _ (-g.stepGradual) h
  · simp [effCount_nil]
    omega

theorem spikePhase_getElem?_not_mem (g : Governor) (delta : Int) {j : Nat}
    (h : j ∉ rebuildBucket g.objects .Low) :
    (spikePhase g delta).1[j]? = g.objects[j]? := by
  unfold spikePhase spikeTourniquet
  split_ifs with hs
  · exact applySteps_getElem?_not_mem _ _ _ _ h
  · rfl

theorem bandPhase_getElem?_not_mem (g : Governor) (freeMB : Int)
    (objs : List GovObject) {j : Nat}
    (hL : j ∉ rebuildBucket g.objects .Low)
    (hN : j ∉ rebuildBucket g.objects .Normal)
    (hH : j ∉ rebuildBucket g.objects .High) :
    (bandPhase g freeMB objs).1[j]? = objs[j]? := by
  unfold bandPhase escalate deescalate
  split_ifs with hs1 hs2
  · exact ((applySteps_getElem?_not_mem _ _ _ _ hH).trans
      (applySteps_getElem?_not_mem _ _ _ _ hN)).trans
      (applySteps_getElem?_not_mem _ _ _ _ hL)
  · exact ((applySteps_getElem?_not_mem _ _ _ _ hL).trans
      (applySteps_getElem?_not_mem _ _ _ _ hN)).trans
      (applySteps_getElem?_not_mem _ _ _ _ hH)
  · rfl

theorem evaluate_first (g : Governor) (now : Rat) (freeMB : Int)
    (h : g.lastFreeMB < 0) :
    evaluate g now freeMB = ({ g with lastFreeMB := freeMB, lastEval := now }, []) := by
  unfold evaluate
  rw [if_pos h]

theorem evaluate_skip (g : Governor) (now : Rat) (freeMB : Int)
    (h1 : ¬ g.lastFreeMB < 0) (h2 : now - g.lastEval < g.evalDt) :
    evaluate g now freeMB = (g, []) := by
  unfold evaluate
  rw [if_neg h1, if_pos h2]

theorem evaluate_act (g : Governor) (now : Rat) (freeMB : Int)
    (h1 : ¬ g.lastFreeMB < 0) (h2 : ¬ now - g.lastEval < g.evalDt) :
    evaluate g now freeMB =
      ({ g with
          lastEval := now,
          lastFreeMB := freeMB,
          objects := (tickSteps g freeMB (freeMB - g.lastFreeMB)).1 },
        (tickSteps g freeMB (freeMB - g.lastFreeMB)).2) := by
  unfold evaluate
  rw [if_neg h1, if_neg h2]

/-! ### Watchdog lemmas -/

theorem readFreeMB_off (t : Telemetry) (hw : Option Int)
    (h : t.useTelemetry = false) : (readFreeMB t hw).1 = false := by
  unfold readFreeMB
  rw [h]
  simp

theorem readFreeMB_valid_nonneg (t : Telemetry) (hw : Option Int)
    (h : (readFreeMB t hw).1 = true) : 0 ≤ (readFreeMB t hw).2 := by
  unfold readFreeMB at h ⊢
  by_cases h1 : t.useTelemetry = true
  · rw [h1] at h ⊢
    rw [if_pos rfl] at h ⊢
    cases hw with
    | none => simp at h
    | some kb =>
      dsimp only at h ⊢
      by_cases h2 : 0 < kb
      · rw [if_pos h2]
        exact Int.ediv_nonneg (le_of_lt h2) (by norm_num)
      · rw [if_neg h2] at h
        simp at h
  · simp only [Bool.not_eq_true] at h1
    rw [h1] at h
    simp at h

theorem onAllocCheck_off (w : TelWatchdog) (t : Telemetry) (hw : Option Int)
    (h : t.useTelemetry = false) : onAllocCheck w t hw = (w, t) := by
  unfold onAllocCheck
  dsimp only
  rw [readFreeMB_off t hw h]
  rfl

theorem runWatchdog_off (hws : List (Option Int)) :
    ∀ (w : TelWatchdog) (t : Telemetry), t.useTelemetry = false →
      runWatchdog w t hws = (w, t) := by
  induction hws with
  | nil => intro w t _; rfl
  | cons hw rest ih =>
    intro w t h
    unfold runWatchdog
    dsimp only
    rw [onAllocCheck_off w t hw h]
    exact ih w t h

theorem onAllocCheck_stall (w : TelWatchdog) (t : Telemetry) (hw : Option Int)
    (hv : (readFreeMB t hw).1 = true) (hl : ¬ w.lastMB < 0)
    (hd : w.lastMB - (readFreeMB t hw).2 < 128) :
    onAllocCheck w t hw =
      ({ lastMB := (readFreeMB t hw).2, noMoves := w.noMoves + 1 },
        if 2 ≤ w.noMoves + 1 then { t with useTelemetry := false } else t) := by
  unfold onAllocCheck
  dsimp only
  rw [hv]
  rw [if_neg (by simp), if_neg hl, if_pos hd]
  split_ifs with h5 <;> rfl

/-! ### Claim C3 — watchdog permanently disables telemetry -/

/-- **C3.** After two consecutive allocation events, each followed by a valid
telemetry reading whose drop from the previous reading is below 128 MB,
hardware telemetry is off, and no further sequence of watchdog invocations
ever re-enables it — even if a later reading would have shown a large drop
(`rest` ranges over all further hardware readings); only the explicit
operator toggle (`keyCB`, `C` key) writes `useTelemetry := true`. -/
theorem c3_watchdog_permanent (w1 : TelWatchdog) (t1 : Telemetry)
    (hw1 hw2 : Option Int) (rest : List (Option Int))
    (hn : 0 ≤ w1.noMoves) (hl : 0 ≤ w1.lastMB)
    (hv1 : (readFreeMB t1 hw1).1 = true)
    (hd1 : w1.lastMB - (readFreeMB t1 hw1).2 < 128)
    (hv2 : (readFreeMB (onAllocCheck w1 t1 hw1).2 hw2).1 = true)
    (hd2 : (onAllocCheck w1 t1 hw1).1.lastMB
        - (readFreeMB (onAllocCheck w1 t1 hw1).2 hw2).2 < 128) :
    (onAllocCheck (onAllocCheck w1 t1 hw1).1 (onAllocCheck w1 t1 hw1).2
        hw2).2.useTelemetry = false ∧
      (runWatchdog
          (onAllocCheck (onAllocCheck w1 t1 hw1).1 (onAllocCheck w1 t1 hw1).2 hw2).1
          (onAllocCheck (onAllocCheck w1 t1 hw1).1 (onAllocCheck w1 t1 hw1).2 hw2).2
          rest).2.useTelemetry = false := by
  have hl1 : ¬ w1.lastMB < 0 := by omega
  have e1 := onAllocCheck_stall w1 t1 hw1 hv1 hl1 hd1
  by_cases hc : 2 ≤ w1.noMoves + 1
  · exfalso
    rw [e1, if_pos hc] at hv2
    have hoff := readFreeMB_off { t1 with useTelemetry := false } hw2 rfl
    rw [hv2] at hoff
    simp at hoff
  · rw [e1, if_neg hc] at hv2 hd2 ⊢
    dsimp only at hv2 hd2 ⊢
    have hr1 : 0 ≤ (readFreeMB t1 hw1).2 := readFreeMB_valid_nonneg t1 hw1 hv1
    have hl2 : ¬ (({ lastMB := (readFreeMB t1 hw1).2, noMoves := w1.noMoves + 1 } : TelWatchdog).lastMB < 0) := by
      dsimp only
      omega
    have e2 := onAllocCheck_stall
      { lastMB := (readFreeMB t1 hw1).2, noMoves := w1.noMoves + 1 } t1 hw2 hv2 hl2
      (by dsimp only; omega)
    rw [e2]
    have hc2 : 2 ≤ ({ lastMB := (readFreeMB t1 hw1).2, noMoves := w1.noMoves + 1 } : TelWatchdog).noMoves + 1 := by
      dsimp only
      omega
    rw [if_pos hc2]
    refine ⟨rfl, ?_⟩
    rw [runWatchdog_off rest _ _ rfl]

/-- **C3, witness.** A concrete run: prior reading 1000 MB, two allocation
events each answered by a hardware reading of 1000 MB again (drop 0 < 128),
then a further event whose reading would show a huge drop — telemetry stays
off. -/
theorem c3_watchdog_permanent_witness :
    ((0:Int) ≤ ({ lastMB := 1000, noMoves := 0 } : TelWatchdog).noMoves) ∧
      ((0:Int) ≤ ({ lastMB := 1000, noMoves := 0 } : TelWatchdog).lastMB) ∧
      ((readFreeMB {} (some 1024000)).1 = true) ∧
      (({ lastMB := 1000, noMoves := 0 } : TelWatchdog).lastMB
          - (readFreeMB {} (some 1024000)).2 < 128) ∧
      ((readFreeMB (onAllocCheck { lastMB := 1000, noMoves := 0 } {}
          (some 1024000)).2 (some 1024000)).1 = true) ∧
      ((onAllocCheck { lastMB := 1000, noMoves := 0 } {} (some 1024000)).1.lastMB
          - (readFreeMB (onAllocCheck { lastMB := 1000, noMoves := 0 } {}
              (some 1024000)).2 (some 1024000)).2 < 128) ∧
      ((onAllocCheck
          (onAllocCheck { lastMB := 1000, noMoves := 0 } {} (some 1024000)).1
          (onAllocCheck { lastMB := 1000, noMoves := 0 } {} (some 1024000)).2
          (some 1024000)).2.useTelemetry = false ∧
        (runWatchdog
            (onAllocCheck
              (onAllocCheck { lastMB := 1000, noMoves := 0 } {} (some 1024000)).1
              (onAllocCheck { lastMB := 1000, noMoves := 0 } {} (some 1024000)).2
              (some 1024000)).1
            (onAllocCheck
              (onAllocCheck { lastMB := 1000, noMoves := 0 } {} (some 1024000)).1
              (onAllocCheck { lastMB := 1000, noMoves := 0 } {} (some 1024000)).2
              (some 1024000)).2
            [some 102400]).2.useTelemetry = false) :=
  ⟨by decide, by decide, by decide, by decide, by decide, by decide,
    c3_watchdog_permanent { lastMB := 1000, noMoves := 0 } {} (some 1024000)
      (some 1024000) [some 102400] (by decide) (by decide) (by decide)
      (by decide) (by decide) (by decide)⟩

/-! ### Claim C5 — what the reset key actually restores -/

/-- **C5, counterexample.** The claim says reset restores the watchdog
counters to their initial values (`lastFreeMB = -1`, `consecutiveStalls = 0`).
It does not: from a state with one stall recorded, the `R` handler leaves the
stall counter at 1 (it only clears pads, the committed-block count, and the
biases). -/
theorem c5_counterexample : (keyResetR sReset).watch.noMoves ≠ 0 := by
  decide

/-- **C5, amended.** Reset, from any prior state, destroys all pads, clears
the committed-allocation block count, and sets every registered object's bias
to exactly 0 — but it leaves the watchdog counters untouched (they keep
whatever values they had). -/
theorem c5_reset_behavior (s : AppState) :
    (keyResetR s).pads = 0 ∧ (keyResetR s).tel.padBlocks = 0 ∧
      (∀ o ∈ (keyResetR s).gov.objects, o.bias = 0) ∧
      (keyResetR s).watch = s.watch := by
  refine ⟨rfl, rfl, ?_, rfl⟩
  intro o ho
  simp only [keyResetR] at ho
  rcases List.mem_map.mp ho with ⟨o2, _, rfl⟩
  rfl

/-! ### Claim C9 — fallback estimator -/

/-- **C9.** Whenever `readFreeMB` reports an unavailable hardware reading it
returns `max(0, baselineFreeMB - committedBlocks * 256)` (the fixed block
size is 256 MB); this estimate is always non-negative and is monotonically
non-increasing in the committed-block count for a fixed baseline. -/
theorem c9_fallback_estimator (base b1 b2 : Int) (h : b1 ≤ b2) :
    (∀ (t : Telemetry) (hw : Option Int), (readFreeMB t hw).1 = false →
        (readFreeMB t hw).2 = estimateFreeMB t.fallbackBaseFreeMB t.padBlocks) ∧
      0 ≤ estimateFreeMB base b1 ∧
      estimateFreeMB base b2 ≤ estimateFreeMB base b1 := by
  refine ⟨?_, ?_, ?_⟩
  · intro t hw hf
    unfold readFreeMB at hf ⊢
    by_cases h1 : t.useTelemetry = true
    · rw [h1] at hf ⊢
      rw [if_pos rfl] at hf ⊢
      cases hw with
      | none => rfl
      | some kb =>
        dsimp only at hf ⊢
        by_cases h2 : 0 < kb
        · rw [if_pos h2] at hf
          simp at hf
        · rw [if_neg h2]
    · simp only [Bool.not_eq_true] at h1
      rw [h1] at hf ⊢
      rfl
  · unfold estimateFreeMB
    exact le_max_left 0 _
  · unfold estimateFreeMB
    have hm : base - b2 * 256 ≤ base - b1 * 256 := by omega
    exact max_le_max (le_refl 0) hm

/-- **C9, witness.** At baseline 2048 with 1 ≤ 3 committed blocks the
estimate is non-negative and non-increasing. -/
theorem c9_fallback_estimator_witness :
    ((1:Int) ≤ 3) ∧
      ((∀ (t : Telemetry) (hw : Option Int), (readFreeMB t hw).1 = false →
          (readFreeMB t hw).2 = estimateFreeMB t.fallbackBaseFreeMB t.padBlocks) ∧
        0 ≤ estimateFreeMB 2048 1 ∧
        estimateFreeMB 2048 3 ≤ estimateFreeMB 2048 1) :=
  ⟨by decide, c9_fallback_estimator 2048 1 3 (by decide)⟩

/-! ### Claim C1 — per-tick effective-mutation budget -/

/-- **C1, counterexample.** The claim says a tick's effective mutations never
exceed `stepBudgetPerTick`, with spike and escalation drawing on one shared
budget. They do not share one: `spikeTourniquet` and `escalate` each
initialize their own `budget = stepBudgetPerTick`. On the demo registry with
the default configuration (`stepBudgetPerTick = 4`), a tick whose reading
dropped from 2000 MB to 100 MB fires the spike path (2 effective Low steps)
and then escalation (4 more effective steps), 6 effective mutations in one
tick. -/
theorem c1_counterexample :
    ¬ ((effCount (evaluate gDemo 1 100).2 : Int) ≤ gDemo.stepBudgetPerTick) := by
  with_unfolding_all decide

/-- **C1, amended.** Each mutation phase initializes its own budget, so a
single tick performs at most `2 * stepBudgetPerTick` effective (value-
changing) bias mutations — up to `stepBudgetPerTick` in the spike phase and
up to `stepBudgetPerTick` more in the band phase (escalation or
de-escalation); the bound `stepBudgetPerTick` itself holds for each phase
separately, not for the whole tick. -/
theorem c1_tick_effective_bound (g : Governor) (now : Rat) (freeMB : Int)
    (h : 0 ≤ g.stepBudgetPerTick) :
    (effCount (evaluate g now freeMB).2 : Int) ≤ 2 * g.stepBudgetPerTick := by
  by_cases h1 : g.lastFreeMB < 0
  · rw [evaluate_first g now freeMB h1]
    simp only [effCount_nil, Nat.cast_zero]
    omega
  · by_cases h2 : now - g.lastEval < g.evalDt
    · rw [evaluate_skip g now freeMB h1 h2]
      simp only [effCount_nil, Nat.cast_zero]
      omega
    · rw [evaluate_act g now freeMB h1 h2]
      show (effCount (tickSteps g freeMB (freeMB - g.lastFreeMB)).2 : Int) ≤ _
      unfold tickSteps
      dsimp only
      rw [effCount_append]
      have hs := spikePhase_effCount g (freeMB - g.lastFreeMB) h
      have hb := bandPhase_effCount g freeMB
        (spikePhase g (freeMB - g.lastFreeMB)).1 h
      push_cast
      omega

/-- **C1, amended, witness.** The bound holds on the counterexample tick:
6 effective mutations ≤ 2 × 4. -/
theorem c1_tick_effective_bound_witness :
    ((0:Int) ≤ gDemo.stepBudgetPerTick) ∧
      (effCount (evaluate gDemo 1 100).2 : Int) ≤ 2 * gDemo.stepBudgetPerTick :=
  ⟨by decide, c1_tick_effective_bound gDemo 1 100 (by decide)⟩

/-! ### Claim C2 — bias bounds invariant -/

/-- **C2.** If every registered object starts a tick with sane bounds and a
bias inside them, then immediately after the evaluation tick every object's
bias again satisfies `biasMin ≤ bias ≤ biasMax`: every mutation clamps to the
bounds on write, and untouched objects keep their in-bounds value. -/
theorem c2_bias_within_bounds (g : Governor) (now : Rat) (freeMB : Int)
    (h : ∀ o ∈ g.objects,
      o.biasMin ≤ o.biasMax ∧ o.biasMin ≤ o.bias ∧ o.bias ≤ o.biasMax) :
    ∀ o ∈ (evaluate g now freeMB).1.objects,
      o.biasMin ≤ o.bias ∧ o.bias ≤ o.biasMax := by
  have key : ∀ o ∈ (evaluate g now freeMB).1.objects, GoodObj o := by
    by_cases h1 : g.lastFreeMB < 0
    · rw [evaluate_first g now freeMB h1]
      exact h
    · by_cases h2 : now - g.lastEval < g.evalDt
      · rw [evaluate_skip g now freeMB h1 h2]
        exact h
      · rw [evaluate_act g now freeMB h1 h2]
        show ∀ o ∈ (tickSteps g freeMB (freeMB - g.lastFreeMB)).1, GoodObj o
        unfold tickSteps
        dsimp only
        exact bandPhase_good g freeMB
          (spikePhase_good g (freeMB - g.lastFreeMB) h)
  exact fun o ho => (key o ho).2

/-- **C2, witness.** On the demo registry (bounds `[0, 8]`, bias `0`) the
spike-and-escalate tick leaves every bias inside its bounds. -/
theorem c2_bias_within_bounds_witness :
    (∀ o ∈ gDemo.objects,
        o.biasMin ≤ o.biasMax ∧ o.biasMin ≤ o.bias ∧ o.bias ≤ o.biasMax) ∧
      ∀ o ∈ (evaluate gDemo 1 100).1.objects,
        o.biasMin ≤ o.bias ∧ o.bias ≤ o.biasMax :=
  ⟨by decide, c2_bias_within_bounds gDemo 1 100 (by decide)⟩

/-! ### Claim C4 — deadband ticks change nothing -/

/-- **C4.** On a tick whose signal lies strictly inside the hysteresis band
`(target - hysteresis, target + hysteresis)` and whose delta did not trip the
spike threshold, no object's bias (indeed no object field at all) changes. -/
theorem c4_deadband_no_change (g : Governor) (now : Rat) (freeMB : Int)
    (hlo : g.targetFreeMB - g.hysteresisMB < freeMB)
    (hhi : freeMB < g.targetFreeMB + g.hysteresisMB)
    (hspike : ¬ (freeMB - g.lastFreeMB ≤ -g.spikeThreshMB)) :
    (evaluate g now freeMB).1.objects = g.objects := by
  by_cases h1 : g.lastFreeMB < 0
  · rw [evaluate_first g now freeMB h1]
  · by_cases h2 : now - g.lastEval < g.evalDt
    · rw [evaluate_skip g now freeMB h1 h2]
    · rw [evaluate_act g now freeMB h1 h2]
      show (tickSteps g freeMB (freeMB - g.lastFreeMB)).1 = g.objects
      unfold tickSteps
      dsimp only
      rw [spikePhase_neg g hspike]
      dsimp only
      rw [bandPhase_none g g.objects (by omega) (by omega)]

/-- **C4, witness.** Demo registry, previous reading 1000 MB, current
reading 1000 MB: inside the band `(896, 1152)`, no spike — objects
unchanged. -/
theorem c4_deadband_no_change_witness :
    (gDemoInBand.targetFreeMB - gDemoInBand.hysteresisMB < 1000) ∧
      ((1000:Int) < gDemoInBand.targetFreeMB + gDemoInBand.hysteresisMB) ∧
      (¬ ((1000:Int) - gDemoInBand.lastFreeMB ≤ -gDemoInBand.spikeThreshMB)) ∧
      (evaluate gDemoInBand 1 1000).1.objects = gDemoInBand.objects :=
  ⟨by decide, by decide, by decide,
    c4_deadband_no_change gDemoInBand 1 1000 (by decide) (by decide) (by decide)⟩

/-! ### Claim C6 — bucket construction and ordering -/

/-- **C6, counterexample.** The claim asserts ties are broken by ascending
object id. The comparator passed to `std::sort` compares only
`estimatedFootprintMB`, and `std::sort` leaves the order of
comparator-equal elements unspecified: for two visible Low objects with equal
footprints (ids 0 and 1, collected as `[0, 1]`), the output `[1, 0]`
satisfies everything the sort call guarantees (`sortSpecStd`) yet violates
the claimed descending-footprint/ascending-id order, so the claimed
deterministic tie-break does not hold of the code. -/
theorem c6_counterexample :
    sortSpecStd objsTie (visibleIdx objsTie .Low) [1, 0] ∧
      ¬ specTieOrder objsTie [1, 0] := by
  unfold sortSpecStd sortedByEstDesc specTieOrder
  refine ⟨⟨by with_unfolding_all decide, by with_unfolding_all decide⟩,
    by with_unfolding_all decide⟩

/-- **C6, amended.** At the start of every evaluation the buckets are rebuilt
as a partition of the currently visible managed objects into Low, Normal and
High lists, each ordered by descending `estimatedFootprintMB`; the order
among objects of equal footprint is whatever the sort implementation
produces (the comparator gives no id tie-break, so determinism on ties is
not guaranteed). Bucket `p` is a permutation of the visible tier-`p` indices
in registry order, is sorted by descending footprint, and contains exactly
the in-range, visible, tier-`p` indices. -/
theorem c6_bucket_partition (objs : List GovObject) (p : Priority) :
    (rebuildBucket objs p).Perm (visibleIdx objs p) ∧
      sortedByEstDesc objs (rebuildBucket objs p) ∧
      ∀ i : Nat, i ∈ rebuildBucket objs p ↔
        i < objs.length ∧ (objs.getD i default).visible = true ∧
          (objs.getD i default).priority = p :=
  ⟨rebuildBucket_perm objs p, rebuildBucket_sorted objs p,
    fun _ => mem_rebuildBucket⟩

/-! ### Claim C7 — spike steps Low before anything else -/

/-- **C7.** On a tick where `delta ≤ -spikeThresholdMB`, the tick's write
trace begins with the whole spike phase — `+stepSpike` writes to Low-bucket
objects only — and every write to a Normal- or High-priority object happens
after it, in the trailing band phase. -/
theorem c7_spike_low_first (g : Governor) (now : Rat) (freeMB : Int)
    (h1 : ¬ g.lastFreeMB < 0) (h2 : ¬ now - g.lastEval < g.evalDt)
    (hspike : freeMB - g.lastFreeMB ≤ -g.spikeThreshMB) :
    ∃ t2, (evaluate g now freeMB).2 =
        (spikeTourniquet g g.objects (rebuildBucket g.objects .Low)).2 ++ t2 ∧
      ∀ e ∈ (spikeTourniquet g g.objects (rebuildBucket g.objects .Low)).2,
        e.delta = g.stepSpike ∧
          (g.objects.getD e.idx default).priority = Priority.Low := by
  rw [evaluate_act g now freeMB h1 h2]
  refine ⟨(bandPhase g freeMB
      (spikeTourniquet g g.objects (rebuildBucket g.objects .Low)).1).2, ?_, ?_⟩
  · show (tickSteps g freeMB (freeMB - g.lastFreeMB)).2 = _
    unfold tickSteps
    dsimp only
    rw [spikePhase_pos g hspike]
  · intro e he
    unfold spikeTourniquet at he
    dsimp only at he
    have hev := applySteps_events (rebuildBucket g.objects .Low) g.stepSpike
      g.objects g.stepBudgetPerTick e he
    exact ⟨hev.2, (mem_rebuildBucket.mp hev.1).2.2⟩

/-- **C7, witness.** The demo tick dropping from 2000 MB to 100 MB: its trace
starts with the spike writes, all of them `+stepSpike` on Low objects. -/
theorem c7_spike_low_first_witness :
    (¬ gDemo.lastFreeMB < 0) ∧ (¬ ((1:Rat) - gDemo.lastEval < gDemo.evalDt)) ∧
      ((100:Int) - gDemo.lastFreeMB ≤ -gDemo.spikeThreshMB) ∧
      ∃ t2, (evaluate gDemo 1 100).2 =
          (spikeTourniquet gDemo gDemo.objects
            (rebuildBucket gDemo.objects .Low)).2 ++ t2 ∧
        ∀ e ∈ (spikeTourniquet gDemo gDemo.objects
            (rebuildBucket gDemo.objects .Low)).2,
          e.delta = gDemo.stepSpike ∧
            (gDemo.objects.getD e.idx default).priority = Priority.Low :=
  ⟨by decide, by with_unfolding_all decide, by decide,
    c7_spike_low_first gDemo 1 100 (by decide)
      (by with_unfolding_all decide) (by decide)⟩

/-! ### Claim C8 — de-escalation order High, Normal, Low -/

/-- **C8.** A de-escalation tick (signal above `target + hysteresis`, here
with a non-negative hysteresis and no spike) produces its `-stepGradual`
writes as the High-bucket trace, then the Normal-bucket trace, then the
Low-bucket trace — the reverse of the escalation traversal. -/
theorem c8_deescalate_order (g : Governor) (now : Rat) (freeMB : Int)
    (h1 : ¬ g.lastFreeMB < 0) (h2 : ¬ now - g.lastEval < g.evalDt)
    (hnospike : ¬ (freeMB - g.lastFreeMB ≤ -g.spikeThreshMB))
    (hhyst : 0 ≤ g.hysteresisMB)
    (hhi : g.targetFreeMB + g.hysteresisMB < freeMB) :
    ∃ tH tN tL, (evaluate g now freeMB).2 = tH ++ (tN ++ tL) ∧
      (∀ e ∈ tH, e.delta = -g.stepGradual ∧
        (g.objects.getD e.idx default).priority = Priority.High) ∧
      (∀ e ∈ tN, e.delta = -g.stepGradual ∧
        (g.objects.getD e.idx default).priority = Priority.Normal) ∧
      (∀ e ∈ tL, e.delta = -g.stepGradual ∧
        (g.objects.getD e.idx default).priority = Priority.Low) := by
  rw [evaluate_act g now freeMB h1 h2]
  have hlo : ¬ freeMB < g.targetFreeMB - g.hysteresisMB := by omega
  refine ⟨(applySteps g.objects (rebuildBucket g.objects .High) (-g.stepGradual)
        g.stepBudgetPerTick).2.2,
    (applySteps (applySteps g.objects (rebuildBucket g.objects .High)
        (-g.stepGradual) g.stepBudgetPerTick).1 (rebuildBucket g.objects .Normal)
        (-g.stepGradual)
        (applySteps g.objects (rebuildBucket g.objects .High) (-g.stepGradual)
          g.stepBudgetPerTick).2.1).2.2,
    (applySteps (applySteps (applySteps g.objects (rebuildBucket g.objects .High)
          (-g.stepGradual) g.stepBudgetPerTick).1 (rebuildBucket g.objects .Normal)
          (-g.stepGradual)
          (applySteps g.objects (rebuildBucket g.objects .High) (-g.stepGradual)
            g.stepBudgetPerTick).2.1).1 (rebuildBucket g.objects .Low)
        (-g.stepGradual)
        (applySteps (applySteps g.objects (rebuildBucket g.objects .High)
          (-g.stepGradual) g.stepBudgetPerTick).1 (rebuildBucket g.objects .Normal)
          (-g.stepGradual)
          (applySteps g.objects (rebuildBucket g.objects .High) (-g.stepGradual)
            g.stepBudgetPerTick).2.1).2.1).2.2, ?_, ?_, ?_, ?_⟩
  · show (tickSteps g freeMB (freeMB - g.lastFreeMB)).2 = _
    unfold tickSteps
    dsimp only
    rw [spikePhase_neg g hnospike]
    dsimp only
    rw [bandPhase_deesc g g.objects hlo hhi]
    unfold deescalate
    dsimp only
    rfl
  · intro e he
    have hev := applySteps_events (rebuildBucket g.objects .High)
      (-g.stepGradual) g.objects g.stepBudgetPerTick e he
    exact ⟨hev.2, (mem_rebuildBucket.mp hev.1).2.2⟩
  · intro e he
    have hev := applySteps_events (rebuildBucket g.objects .Normal)
      (-g.stepGradual) _ _ e he
    exact ⟨hev.2, (mem_rebuildBucket.mp hev.1).2.2⟩
  · intro e he
    have hev := applySteps_events (rebuildBucket g.objects .Low)
      (-g.stepGradual) _ _ e he
    exact ⟨hev.2, (mem_rebuildBucket.mp hev.1).2.2⟩

/-- **C8, witness.** Demo registry, previous reading 1000 MB, current
reading 1200 MB (above `hi = 1152`, no spike): the de-escalation trace
decomposes High then Normal then Low. -/
theorem c8_deescalate_order_witness :
    (¬ gDemoInBand.lastFreeMB < 0) ∧
      (¬ ((1:Rat) - gDemoInBand.lastEval < gDemoInBand.evalDt)) ∧
      (¬ ((1200:Int) - gDemoInBand.lastFreeMB ≤ -gDemoInBand.spikeThreshMB)) ∧
      ((0:Int) ≤ gDemoInBand.hysteresisMB) ∧
      (gDemoInBand.targetFreeMB + gDemoInBand.hysteresisMB < 1200) ∧
      ∃ tH tN tL, (evaluate gDemoInBand 1 1200).2 = tH ++ (tN ++ tL) ∧
        (∀ e ∈ tH, e.delta = -gDemoInBand.stepGradual ∧
          (gDemoInBand.objects.getD e.idx default).priority = Priority.High) ∧
        (∀ e ∈ tN, e.delta = -gDemoInBand.stepGradual ∧
          (gDemoInBand.objects.getD e.idx default).priority = Priority.Normal) ∧
        (∀ e ∈ tL, e.delta = -gDemoInBand.stepGradual ∧
          (gDemoInBand.objects.getD e.idx default).priority = Priority.Low) :=
  ⟨by decide, by with_unfolding_all decide, by decide, by decide, by decide,
    c8_deescalate_order gDemoInBand 1 1200 (by decide)
      (by with_unfolding_all decide) (by decide) (by decide) (by decide)⟩

/-! ### Claim C10 — invisible objects are never touched -/

/-- **C10.** An object that is invisible at the start of a tick is left
entirely unchanged by that tick: bucket construction skips invisible
objects, and every governor mutation path steps only bucketed indices. -/
theorem c10_invisible_untouched (g : Governor) (now : Rat) (freeMB : Int)
    (i : Nat) (o : GovObject) (hget : g.objects[i]? = some o)
    (hvis : o.visible = false) :
    (evaluate g now freeMB).1.objects[i]? = some o := by
  have hnot : ∀ p : Priority, i ∉ rebuildBucket g.objects p := by
    intro p hmem
    rcases mem_rebuildBucket.mp hmem with ⟨_, hv, _⟩
    rw [List.getD_eq_getElem?_getD, hget] at hv
    dsimp only [Option.getD_some] at hv
    rw [hvis] at hv
    exact Bool.false_ne_true hv
  by_cases h1 : g.lastFreeMB < 0
  · rw [evaluate_first g now freeMB h1]
    exact hget
  · by_cases h2 : now - g.lastEval < g.evalDt
    · rw [evaluate_skip g now freeMB h1 h2]
      exact hget
    · rw [evaluate_act g now freeMB h1 h2]
      show (tickSteps g freeMB (freeMB - g.lastFreeMB)).1[i]? = some o
      unfold tickSteps
      dsimp only
      rw [bandPhase_getElem?_not_mem g freeMB _ (hnot .Low) (hnot .Normal)
        (hnot .High)]
      rw [spikePhase_getElem?_not_mem g (freeMB - g.lastFreeMB) (hnot .Low)]
      exact hget

/-- **C10, witness.** A spike-and-escalate tick on a registry with one
invisible object leaves that object exactly as it was. -/
theorem c10_invisible_untouched_witness :
    (gHidden.objects[1]? = some oHidden) ∧ (oHidden.visible = false) ∧
      (evaluate gHidden 1 100).1.objects[1]? = some oHidden :=
  ⟨rfl, rfl, c10_invisible_untouched gHidden 1 100 1 oHidden rfl rfl⟩

end VramGov
